import Mathlib

/-!
Shallow embedding of the two Glue copy jobs (src/test.py and src/test2.py).

Each job is modelled as a pure function from its resolved arguments and an
explicit external world (the secret-store response, the database driver's
response to a connect call, and the per-statement execution outcome) to a
trace of observable events plus an outcome.  The trace records every call
to the logger (the key and the argument strings passed, before catalog
formatting), the secret fetch, the connection attempt/open, every
cursor.execute call, and every commit / rollback / close on the connection.
-/

namespace CopyJob

/-- Whitespace characters stripped by the Python int() conversion. -/
def pyWs (c : Char) : Bool :=
  (c == ' ') || (c == '\t') || (c == '\n') || (c == '\r')

/-- Strip leading and trailing whitespace from a character list. -/
def pyStrip (cs : List Char) : List Char :=
  List.reverse (List.dropWhile pyWs (List.reverse (List.dropWhile pyWs cs)))

/-- Tail of a valid Python integer literal body: digits with single
underscores allowed only between digits. -/
def pyIntRest : List Char → Bool
  | [] => true
  | ['_'] => false
  | '_' :: c2 :: cs2 => c2.isDigit && pyIntRest cs2
  | c :: cs => c.isDigit && pyIntRest cs

/-- A valid Python integer literal body: one or more decimal digits, with
single underscores allowed between digits. -/
def pyIntDigits : List Char → Bool
  | [] => false
  | c :: cs => c.isDigit && pyIntRest cs

/-- Numeric value of a digit list (underscores skipped). -/
def digitsVal (cs : List Char) : Nat :=
  (cs.filter (fun c => !(c == '_'))).foldl (fun acc c => acc * 10 + (c.toNat - 48)) 0

/-- Model of the Python builtin int(str): optional surrounding whitespace,
optional sign, then a decimal digit body; returns none when the string is
not a valid base-10 integer literal (ValueError in Python). -/
def pyInt (s : String) : Option Int :=
  match pyStrip s.data with
  | '+' :: cs => if pyIntDigits cs then some (Int.ofNat (digitsVal cs)) else none
  | '-' :: cs => if pyIntDigits cs then some (-(Int.ofNat (digitsVal cs))) else none
  | cs => if pyIntDigits cs then some (Int.ofNat (digitsVal cs)) else none

/-- Observable events of one job run. -/
inductive Event
  | log (key : String) (args : List String)
  | fetchSecret (name : String)
  | connectAttempt
  | connOpened
  | execQuery (sql : String)
  | commit
  | rollback
  | close
  deriving DecidableEq

/-- Python exceptions that the jobs can raise. -/
inductive PyErr
  | keyError (key : String)
  | valueError (msg : String)
  | secretError (msg : String)
  | connError (msg : String)
  | runtimeError (msg : String)
  | execError (msg : String)
  deriving DecidableEq

/-- Model of Python str(err) used when an exception is interpolated into a
message. -/
def pyStr : PyErr → String
  | PyErr.keyError k => k
  | PyErr.valueError m => m
  | PyErr.secretError m => m
  | PyErr.connError m => m
  | PyErr.runtimeError m => m
  | PyErr.execError m => m

/-- Python dict subscript access: KeyError when the key is absent. -/
def dictGet (d : List (String × String)) (k : String) : Except PyErr String :=
  match d.lookup k with
  | some v => Except.ok v
  | none => Except.error (PyErr.keyError k)

/-- Keyword arguments passed to pg8000.connect in test.py (port already
converted to int). -/
structure Conn1Params where
  database : String
  user : String
  password : String
  host : String
  port : Int
  deriving DecidableEq

/-- Keyword arguments passed to psycopg2.connect in test2.py (port passed
through as a string). -/
structure Conn2Params where
  dbname : String
  user : String
  password : String
  host : String
  port : String
  deriving DecidableEq

/-- Evaluation of the keyword arguments of pg8000.connect in test.py, in
source order: dict lookups for dbName, username, password, host, port, then
int() on the port string.  Any of these can raise. -/
def connParams1 (d : List (String × String)) : Except PyErr Conn1Params :=
  match d.lookup "dbName" with
  | none => Except.error (PyErr.keyError "dbName")
  | some database =>
    match d.lookup "username" with
    | none => Except.error (PyErr.keyError "username")
    | some user =>
      match d.lookup "password" with
      | none => Except.error (PyErr.keyError "password")
      | some password =>
        match d.lookup "host" with
        | none => Except.error (PyErr.keyError "host")
        | some host =>
          match d.lookup "port" with
          | none => Except.error (PyErr.keyError "port")
          | some portStr =>
            match pyInt portStr with
            | none =>
              Except.error
                (PyErr.valueError ("invalid literal for int() with base 10: " ++ portStr))
            | some p => Except.ok (Conn1Params.mk database user password host p)

/-- Evaluation of the keyword arguments of psycopg2.connect in test2.py, in
source order: dict lookups for dbname, username, password, host, port.  No
int conversion happens in test2.py. -/
def connParams2 (d : List (String × String)) : Except PyErr Conn2Params :=
  match d.lookup "dbname" with
  | none => Except.error (PyErr.keyError "dbname")
  | some dbname =>
    match d.lookup "username" with
    | none => Except.error (PyErr.keyError "username")
    | some user =>
      match d.lookup "password" with
      | none => Except.error (PyErr.keyError "password")
      | some password =>
        match d.lookup "host" with
        | none => Except.error (PyErr.keyError "host")
        | some host =>
          match d.lookup "port" with
          | none => Except.error (PyErr.keyError "port")
          | some port => Except.ok (Conn2Params.mk dbname user password host port)

/-- get_redshift_connection from test.py: the whole body, including the
argument evaluation and the pg8000.connect call, sits inside a try block
whose except clause wraps any exception into a RuntimeError. -/
def get_redshift_connection1 (connect : Conn1Params → Except String Unit)
    (secret_dict : List (String × String)) : List Event × Except PyErr Unit :=
  match connParams1 secret_dict with
  | Except.error e =>
    ([], Except.error (PyErr.runtimeError ("Redshiftへの接続に失敗しました: " ++ pyStr e)))
  | Except.ok ps =>
    match connect ps with
    | Except.error m =>
      ([Event.connectAttempt],
        Except.error (PyErr.runtimeError ("Redshiftへの接続に失敗しました: " ++ m)))
    | Except.ok _ => ([Event.connectAttempt, Event.connOpened], Except.ok ())

/-- get_redshift_connection from test2.py: no try block, driver errors
propagate as-is. -/
def get_redshift_connection2 (connect : Conn2Params → Except String Unit)
    (secret_dict : List (String × String)) : List Event × Except PyErr Unit :=
  match connParams2 secret_dict with
  | Except.error e => ([], Except.error e)
  | Except.ok ps =>
    match connect ps with
    | Except.error m => ([Event.connectAttempt], Except.error (PyErr.connError m))
    | Except.ok _ => ([Event.connectAttempt, Event.connOpened], Except.ok ())

/-- run_queries (identical in test.py and test2.py): open a cursor, execute
each query in list order, commit after the loop.  A failing execute raises
immediately: later queries are not executed and commit is not reached.
The world function execQ gives each execute call's outcome: none means
success, some msg means the driver raised with message msg. -/
def run_queries (execQ : String → Option String) : List String → List Event × Option String
  | [] => ([Event.commit], none)
  | q :: rest =>
    match execQ q with
    | some msg => ([Event.execQuery q], some msg)
    | none =>
      let r := run_queries execQ rest
      (Event.execQuery q :: r.1, r.2)

/-- Resolved Glue arguments of test.py. -/
structure Args1 where
  SECRET_NAME : String
  RAW_SCHEMA : String
  RAW_TABLE : String
  STORAGE_SCHEMA : String
  STORAGE_TABLE : String

/-- External world of one test.py run: the secret-store response, the
driver's response to a connect call, and each execute call's outcome. -/
structure World1 where
  secretResult : Except String (List (String × String))
  connect : Conn1Params → Except String Unit
  execQ : String → Option String

/-- Resolved Glue arguments of test2.py. -/
structure Args2 where
  SECRET_NAME : String
  SCHEMA_NO : String
  RAW_SCHEMA : String
  RAW_TABLE : String
  STORAGE_SCHEMA : String
  STORAGE_TABLE : String
  ANALYSIS_SCHEMA : String
  ANALYSIS_TABLE : String

/-- External world of one test2.py run. -/
structure World2 where
  secretResult : Except String (List (String × String))
  connect : Conn2Params → Except String Unit
  execQ : String → Option String

/-- The two copy statements built in test.py main (lines 182-191). -/
def build_queries1 (raw_schema raw_table storage_schema storage_table : String) : List String :=
  ["TRUNCATE TABLE " ++ storage_schema ++ "." ++ storage_table,
    "INSERT INTO " ++ storage_schema ++ "." ++ storage_table
      ++ " SELECT * FROM " ++ raw_schema ++ "." ++ raw_table]

/-- The two statements of the SCHEMA_NO=1 branch of test2.py main:
RAW to STORAGE. -/
def storageQueries (a : Args2) : List String :=
  ["TRUNCATE TABLE " ++ a.STORAGE_SCHEMA ++ "." ++ a.STORAGE_TABLE,
    "INSERT INTO " ++ a.STORAGE_SCHEMA ++ "." ++ a.STORAGE_TABLE
      ++ " SELECT * FROM " ++ a.RAW_SCHEMA ++ "." ++ a.RAW_TABLE]

/-- The two statements of the SCHEMA_NO=2 branch of test2.py main:
STORAGE to ANALYSIS. -/
def analysisQueries (a : Args2) : List String :=
  ["TRUNCATE TABLE " ++ a.ANALYSIS_SCHEMA ++ "." ++ a.ANALYSIS_TABLE,
    "INSERT INTO " ++ a.ANALYSIS_SCHEMA ++ "." ++ a.ANALYSIS_TABLE
      ++ " SELECT * FROM " ++ a.STORAGE_SCHEMA ++ "." ++ a.STORAGE_TABLE]

/-- The statement pair selected by the SCHEMA_NO routing of test2.py main
(lines 107-120): mode 1 routes RAW to STORAGE, mode 2 routes STORAGE to
ANALYSIS, every other mode raises. -/
def buildStatements2 (schema_no : Int) (a : Args2) : Option (List String) :=
  if schema_no = 1 then some (storageQueries a)
  else if schema_no = 2 then some (analysisQueries a)
  else none

/-- The try / except / finally block of test.py main (lines 194-204):
run the queries; on failure log, rollback and re-raise; always close. -/
def copyPhase1 (execQ : String → Option String) (queries : List String) :
    List Event × Except PyErr Unit :=
  let tr := [Event.log "INFO.data_copy_start" []]
  match run_queries execQ queries with
  | (trq, none) =>
    (tr ++ trq ++ [Event.log "INFO.data_copy_end" [], Event.close,
      Event.log "INFO.connection_closed" [],
      Event.log "INFO.job_end" ["DWH_DB_DB_DATA_COPYジョブ"]], Except.ok ())
  | (trq, some msg) =>
    (tr ++ trq ++ [Event.log "ERROR.data_copy_fail" [msg], Event.rollback, Event.close,
      Event.log "INFO.connection_closed" []], Except.error (PyErr.execError msg))

/-- The try / except / finally block of test2.py main (lines 125-138). -/
def copyPhase2 (execQ : String → Option String) (queries : List String) :
    List Event × Except PyErr Unit :=
  let tr := [Event.log "INFO.data_copy_start" ["开始数据复制"]]
  match run_queries execQ queries with
  | (trq, none) =>
    (tr ++ trq ++ [Event.log "INFO.data_copy_end" ["数据复制完成"], Event.close,
      Event.log "INFO.connection_closed" ["Redshift 连接已关闭"],
      Event.log "INFO.job_end" ["DWH_DB_DB_DATA_COPY Job 执行完成"]], Except.ok ())
  | (trq, some msg) =>
    (tr ++ trq ++ [Event.log "ERROR.data_copy_fail" [msg], Event.rollback, Event.close,
      Event.log "INFO.connection_closed" ["Redshift 连接已关闭"]],
      Except.error (PyErr.execError msg))

/-- main of test.py: fetch the secret, open the connection, build the two
copy statements, then run the guarded copy phase.  Exceptions raised before
the try block (secret fetch, connection) propagate without cleanup. -/
def main1 (a : Args1) (w : World1) : List Event × Except PyErr Unit :=
  let tr0 := [Event.log "INFO.job_start" ["DWH_DB_DB_DATA_COPYジョブ"],
    Event.log "DEBUG.fetch_secret" [a.SECRET_NAME], Event.fetchSecret a.SECRET_NAME]
  match w.secretResult with
  | Except.error m => (tr0, Except.error (PyErr.secretError m))
  | Except.ok secret_dict =>
    let tr1 := tr0 ++ [Event.log "DEBUG.connect_redshift" []]
    match get_redshift_connection1 w.connect secret_dict with
    | (trc, Except.error e) => (tr1 ++ trc, Except.error e)
    | (trc, Except.ok _) =>
      let tr2 := tr1 ++ trc ++ [Event.log "INFO.connect_redshift_success" []]
      let queries := build_queries1 a.RAW_SCHEMA a.RAW_TABLE a.STORAGE_SCHEMA a.STORAGE_TABLE
      let r := copyPhase1 w.execQ queries
      (tr2 ++ r.1, r.2)

/-- main of test2.py: int() on SCHEMA_NO happens first (line 84, before the
logger exists and before any side effect); the secret fetch and connection
open happen next; only then is SCHEMA_NO validated against 1 and 2, the
invalid branch raising outside the try / finally block. -/
def main2 (a : Args2) (w : World2) : List Event × Except PyErr Unit :=
  match pyInt a.SCHEMA_NO with
  | none =>
    ([], Except.error (PyErr.valueError ("invalid literal for int() with base 10: " ++ a.SCHEMA_NO)))
  | some schema_no =>
    let tr0 := [Event.log "INFO.job_start" ["DWH_DB_DB_DATA_COPY Job 开始执行"],
      Event.log "DEBUG.fetch_secret" [a.SECRET_NAME], Event.fetchSecret a.SECRET_NAME]
    match w.secretResult with
    | Except.error m => (tr0, Except.error (PyErr.secretError m))
    | Except.ok secret_dict =>
      let tr1 := tr0 ++ [Event.log "DEBUG.connect_redshift" [""]]
      match get_redshift_connection2 w.connect secret_dict with
      | (trc, Except.error e) => (tr1 ++ trc, Except.error e)
      | (trc, Except.ok _) =>
        let tr2 := tr1 ++ trc ++ [Event.log "INFO.connect_redshift_success" ["Redshift 连接成功"]]
        if schema_no = 1 then
          let r := copyPhase2 w.execQ (storageQueries a)
          (tr2 ++ [Event.log "INFO.schema_selection" ["SCHEMA_NO=1: RAW -> STORAGE"]] ++ r.1, r.2)
        else if schema_no = 2 then
          let r := copyPhase2 w.execQ (analysisQueries a)
          (tr2 ++ [Event.log "INFO.schema_selection" ["SCHEMA_NO=2: STORAGE -> ANALYSIS"]] ++ r.1, r.2)
        else
          (tr2 ++ [Event.log "ERROR.invalid_schema_no" ["无效的 SCHEMA_NO: " ++ toString schema_no]],
            Except.error (PyErr.valueError ("无效的 SCHEMA_NO: " ++ toString schema_no)))

/-- Count the events satisfying a predicate in a trace. -/
def countEvt (p : Event → Bool) (tr : List Event) : Nat :=
  (tr.filter p).length

/-- Recogniser for secret-fetch events. -/
def isFetchSecret : Event → Bool
  | Event.fetchSecret _ => true
  | _ => false

/-- Recogniser for connection attempts. -/
def isConnectAttempt : Event → Bool
  | Event.connectAttempt => true
  | _ => false

/-- Recogniser for connection-close events. -/
def isClose : Event → Bool
  | Event.close => true
  | _ => false

/-- Recogniser for commit events. -/
def isCommit : Event → Bool
  | Event.commit => true
  | _ => false

/-- Recogniser for logger calls. -/
def isLog : Event → Bool
  | Event.log _ _ => true
  | _ => false

/-- The SQL texts of the execute calls in a trace, in order. -/
def execQueries (tr : List Event) : List String :=
  tr.filterMap (fun e =>
    match e with
    | Event.execQuery q => some q
    | _ => none)

/-- The logger calls of a trace, in order. -/
def logEvents (tr : List Event) : List Event :=
  tr.filter isLog

/-- A secret dictionary on which the argument evaluation of pg8000.connect
in test.py succeeds: all five keys present and the port string numeric. -/
def goodDict1 (d : List (String × String)) : Prop :=
  ∃ ps, connParams1 d = Except.ok ps

/-- A secret dictionary on which the argument evaluation of psycopg2.connect
in test2.py succeeds: all five keys present. -/
def goodDict2 (d : List (String × String)) : Prop :=
  ∃ ps, connParams2 d = Except.ok ps

/-- Sample secret payload for test.py runs (all keys present, numeric port). -/
def exDict1 : List (String × String) :=
  [("dbName", "db"), ("username", "user"), ("password", "pw1"), ("host", "h"), ("port", "5439")]

def exDict1b : List (String × String) :=
  [("dbName", "db"), ("username", "user"), ("password", "pw2"), ("host", "h"), ("port", "5439")]

def exDict1bad : List (String × String) :=
  [("dbName", "db"), ("username", "user"), ("password", "pw1"), ("host", "h"), ("port", "abc")]

def exDict2 : List (String × String) :=
  [("dbname", "db"), ("username", "user"), ("password", "pw1"), ("host", "h"), ("port", "5439")]

def exArgs1 : Args1 := Args1.mk "my_redshift_secret" "raw" "orders" "storage" "orders"

def exArgs2bad : Args2 := Args2.mk "sec" "3" "raw" "orders" "storage" "orders" "analysis" "orders"

def exArgs2abc : Args2 := Args2.mk "sec" "abc" "raw" "orders" "storage" "orders" "analysis" "orders"

def exWorld1ok : World1 := World1.mk (Except.ok exDict1) (fun _ => Except.ok ()) (fun _ => none)

def exWorld1fail : World1 :=
  World1.mk (Except.ok exDict1) (fun _ => Except.ok ()) (fun _ => some "boom")

def exWorld1secErr : World1 :=
  World1.mk (Except.error "boom") (fun _ => Except.ok ()) (fun _ => none)

def exWorld2ok : World2 := World2.mk (Except.ok exDict2) (fun _ => Except.ok ()) (fun _ => none)


lemma mem_run_queries (f : String → Option String) (qs : List String) (e : Event)
    (h : e ∈ (run_queries f qs).1) : (∃ q, e = Event.execQuery q) ∨ e = Event.commit := by
  induction qs with
  | nil =>
    simp [run_queries] at h
    right
    exact h
  | cons q rest ih =>
    rcases hfq : f q with _ | m
    · simp [run_queries, hfq] at h
      rcases h with h | h
      · left
        exact ⟨q, h⟩
      · exact ih h
    · simp [run_queries, hfq] at h
      left
      exact ⟨q, h⟩

lemma countEvt_eq_zero (p : Event → Bool) (tr : List Event) (h : ∀ e ∈ tr, p e = false) :
    countEvt p tr = 0 := by
  simp only [countEvt, List.length_eq_zero, List.filter_eq_nil_iff]
  intro e he
  simp [h e he]

lemma countEvt_append (p : Event → Bool) (l m : List Event) :
    countEvt p (l ++ m) = countEvt p l + countEvt p m := by
  simp [countEvt, List.filter_append]

lemma countEvt_nil (p : Event → Bool) : countEvt p [] = 0 := rfl

lemma countEvt_cons_pos (p : Event → Bool) (e : Event) (tr : List Event) (h : p e = true) :
    countEvt p (e :: tr) = countEvt p tr + 1 := by
  simp [countEvt, List.filter_cons, h]

lemma countEvt_cons_neg (p : Event → Bool) (e : Event) (tr : List Event) (h : p e = false) :
    countEvt p (e :: tr) = countEvt p tr := by
  simp [countEvt, List.filter_cons, h]

lemma countEvt_run_queries (p : Event → Bool) (hq : ∀ q, p (Event.execQuery q) = false)
    (hc : p Event.commit = false) (f : String → Option String) (qs : List String) :
    countEvt p (run_queries f qs).1 = 0 := by
  apply countEvt_eq_zero
  intro e he
  rcases mem_run_queries f qs e he with ⟨q, rfl⟩ | rfl
  · exact hq q
  · exact hc

lemma run_queries_complete (f : String → Option String) (qs : List String)
    (h : ∀ q ∈ qs, f q = none) :
    run_queries f qs = (qs.map Event.execQuery ++ [Event.commit], none) := by
  induction qs with
  | nil => rfl
  | cons q rest ih =>
    have hq : f q = none := h q (List.mem_cons_self q rest)
    have ih2 := ih (fun p hp => h p (List.mem_cons_of_mem q hp))
    simp [run_queries, hq, ih2]

lemma run_queries_aborts (f : String → Option String) (qs : List String) :
    ∀ trq msg, run_queries f qs = (trq, some msg) →
      Event.commit ∉ trq ∧ ∃ pre q post, qs = pre ++ q :: post ∧
        (∀ p ∈ pre, f p = none) ∧ f q = some msg ∧
        trq = pre.map Event.execQuery ++ [Event.execQuery q] := by
  induction qs with
  | nil =>
    intro trq msg h
    simp [run_queries] at h
  | cons q rest ih =>
    intro trq msg h
    rcases hfq : f q with _ | m
    · rw [run_queries, hfq] at h
      simp only [Prod.mk.injEq] at h
      obtain ⟨h1, h2⟩ := h
      have hr : run_queries f rest = ((run_queries f rest).1, some msg) := by
        rw [← h2]
      obtain ⟨hnc, pre, p, post, hqs, hpre, hp, htr⟩ := ih _ _ hr
      subst h1
      refine ⟨?_, q :: pre, p, post, by simp [hqs], ?_, hp, by simp [htr]⟩
      · simp only [List.mem_cons, not_or]
        exact ⟨by simp, hnc⟩
      · intro r hr2
        rcases List.mem_cons.mp hr2 with h | h
        · rw [h]
          exact hfq
        · exact hpre r h
    · rw [run_queries, hfq] at h
      simp only [Prod.mk.injEq, Option.some.injEq] at h
      obtain ⟨h1, h2⟩ := h
      subst h1
      subst h2
      exact ⟨by simp, [], q, rest, by simp, by simp, hfq, by simp⟩

lemma conn1_cases (connect : Conn1Params → Except String Unit) (d : List (String × String)) :
    (∃ m, get_redshift_connection1 connect d = ([], Except.error (PyErr.runtimeError m)))
    ∨ (∃ m, get_redshift_connection1 connect d
        = ([Event.connectAttempt], Except.error (PyErr.runtimeError m)))
    ∨ get_redshift_connection1 connect d
        = ([Event.connectAttempt, Event.connOpened], Except.ok ()) := by
  rcases hp : connParams1 d with e | ps
  · exact Or.inl ⟨"Redshiftへの接続に失敗しました: " ++ pyStr e, by simp [get_redshift_connection1, hp]⟩
  · rcases hc : connect ps with m | u
    · exact Or.inr (Or.inl ⟨"Redshiftへの接続に失敗しました: " ++ m,
        by simp [get_redshift_connection1, hp, hc]⟩)
    · exact Or.inr (Or.inr (by simp [get_redshift_connection1, hp, hc]))

lemma conn2_cases (connect : Conn2Params → Except String Unit) (d : List (String × String)) :
    (∃ e, get_redshift_connection2 connect d = ([], Except.error e))
    ∨ (∃ m, get_redshift_connection2 connect d
        = ([Event.connectAttempt], Except.error (PyErr.connError m)))
    ∨ get_redshift_connection2 connect d
        = ([Event.connectAttempt, Event.connOpened], Except.ok ()) := by
  rcases hp : connParams2 d with e | ps
  · exact Or.inl ⟨e, by simp [get_redshift_connection2, hp]⟩
  · rcases hc : connect ps with m | u
    · exact Or.inr (Or.inl ⟨m, by simp [get_redshift_connection2, hp, hc]⟩)
    · exact Or.inr (Or.inr (by simp [get_redshift_connection2, hp, hc]))

lemma conn1_ok_trace (connect : Conn1Params → Except String Unit) (d : List (String × String))
    (trc : List Event) (h : get_redshift_connection1 connect d = (trc, Except.ok ())) :
    trc = [Event.connectAttempt, Event.connOpened] := by
  rcases conn1_cases connect d with ⟨m, hm⟩ | ⟨m, hm⟩ | hm <;> rw [hm] at h <;> simp at h
  exact h.symm

lemma conn2_ok_trace (connect : Conn2Params → Except String Unit) (d : List (String × String))
    (trc : List Event) (h : get_redshift_connection2 connect d = (trc, Except.ok ())) :
    trc = [Event.connectAttempt, Event.connOpened] := by
  rcases conn2_cases connect d with ⟨e, hm⟩ | ⟨m, hm⟩ | hm <;> rw [hm] at h <;> simp at h
  exact h.symm

lemma connParams1_port_invalid (d : List (String × String)) (s : String)
    (hs : d.lookup "port" = some s) (hp : pyInt s = none) :
    ∃ e, connParams1 d = Except.error e := by
  rcases h1 : d.lookup "dbName" with _ | v1
  · exact ⟨PyErr.keyError "dbName", by simp [connParams1, h1]⟩
  · rcases h2 : d.lookup "username" with _ | v2
    · exact ⟨PyErr.keyError "username", by simp [connParams1, h1, h2]⟩
    · rcases h3 : d.lookup "password" with _ | v3
      · exact ⟨PyErr.keyError "password", by simp [connParams1, h1, h2, h3]⟩
      · rcases h4 : d.lookup "host" with _ | v4
        · exact ⟨PyErr.keyError "host", by simp [connParams1, h1, h2, h3, h4]⟩
        · exact ⟨PyErr.valueError ("invalid literal for int() with base 10: " ++ s),
            by simp [connParams1, h1, h2, h3, h4, hs, hp]⟩

/-- C6: for source raw.orders and target storage.orders, test.py builds exactly
the statement list [TRUNCATE TABLE storage.orders,
INSERT INTO storage.orders SELECT * FROM raw.orders], in that order. -/
theorem c6_example_statements :
    build_queries1 "raw" "orders" "storage" "orders"
      = ["TRUNCATE TABLE storage.orders",
          "INSERT INTO storage.orders SELECT * FROM raw.orders"] := rfl

/-- C5: for each valid mode in 1 and 2, statement construction in test2.py
produces exactly two statements: a truncate of the correct target tier
(mode 1: storage; mode 2: analysis) and an insert-select reading from the
correct source tier (mode 1: raw; mode 2: storage). -/
theorem c5_mode_routing (a : Args2) :
    buildStatements2 1 a
      = some ["TRUNCATE TABLE " ++ a.STORAGE_SCHEMA ++ "." ++ a.STORAGE_TABLE,
          "INSERT INTO " ++ a.STORAGE_SCHEMA ++ "." ++ a.STORAGE_TABLE
            ++ " SELECT * FROM " ++ a.RAW_SCHEMA ++ "." ++ a.RAW_TABLE]
    ∧ buildStatements2 2 a
      = some ["TRUNCATE TABLE " ++ a.ANALYSIS_SCHEMA ++ "." ++ a.ANALYSIS_TABLE,
          "INSERT INTO " ++ a.ANALYSIS_SCHEMA ++ "." ++ a.ANALYSIS_TABLE
            ++ " SELECT * FROM " ++ a.STORAGE_SCHEMA ++ "." ++ a.STORAGE_TABLE] :=
  ⟨rfl, rfl⟩

/-- C4: run_queries executes the statements sequentially in list order and
calls commit exactly once, only after every statement has succeeded; if any
statement raises, the trace stops at the failing statement (earlier ones all
succeeded, later ones never run) and commit is never called. -/
theorem c4_run_queries_transaction :
    (∀ (f : String → Option String) (qs : List String), (∀ q ∈ qs, f q = none) →
      run_queries f qs = (qs.map Event.execQuery ++ [Event.commit], none))
    ∧ (∀ (f : String → Option String) (qs : List String) (trq : List Event) (msg : String),
        run_queries f qs = (trq, some msg) →
        Event.commit ∉ trq ∧ ∃ pre q post, qs = pre ++ q :: post ∧
          (∀ p ∈ pre, f p = none) ∧ f q = some msg ∧
          trq = pre.map Event.execQuery ++ [Event.execQuery q]) :=
  ⟨run_queries_complete, fun f qs trq msg h => run_queries_aborts f qs trq msg h⟩

/-- Witness for C4 at a concrete all-success input. -/
theorem c4_witness :
    run_queries (fun _ => none) ["q1", "q2"]
      = ([Event.execQuery "q1", Event.execQuery "q2", Event.commit], none) :=
  c4_run_queries_transaction.1 (fun _ => none) ["q1", "q2"] (fun _ _ => rfl)

/-- C7: noninterference of credential values with the log: for any two secret
payloads accepted by the connect-argument evaluation, with the rest of the
world fixed, the sequence of messages passed to the logger is identical in
both variants — no credential field flows into any logging call. -/
theorem c7_credentials_never_logged :
    (∀ (a : Args1) (cres : Except String Unit) (f : String → Option String)
        (d e : List (String × String)), goodDict1 d → goodDict1 e →
        logEvents (main1 a (World1.mk (Except.ok d) (fun _ => cres) f)).1
          = logEvents (main1 a (World1.mk (Except.ok e) (fun _ => cres) f)).1)
    ∧ (∀ (a : Args2) (cres : Except String Unit) (f : String → Option String)
        (d e : List (String × String)), goodDict2 d → goodDict2 e →
        logEvents (main2 a (World2.mk (Except.ok d) (fun _ => cres) f)).1
          = logEvents (main2 a (World2.mk (Except.ok e) (fun _ => cres) f)).1) := by
  constructor
  · rintro a cres f d e ⟨ps, hps⟩ ⟨qs, hqs⟩
    rcases cres with m | u
    · simp [main1, get_redshift_connection1, hps, hqs]
    · simp [main1, get_redshift_connection1, hps, hqs]
  · rintro a cres f d e ⟨ps, hps⟩ ⟨qs, hqs⟩
    rcases hpi : pyInt a.SCHEMA_NO with _ | n
    · simp [main2, hpi]
    · rcases cres with m | u
      · simp [main2, get_redshift_connection2, hps, hqs, hpi]
      · simp [main2, get_redshift_connection2, hps, hqs, hpi]

/-- Witness for C7: two payloads differing in the password give the same log
sequence. -/
theorem c7_witness :
    logEvents (main1 exArgs1
        (World1.mk (Except.ok exDict1) (fun _ => Except.ok ()) (fun _ => none))).1
      = logEvents (main1 exArgs1
        (World1.mk (Except.ok exDict1b) (fun _ => Except.ok ()) (fun _ => none))).1 :=
  c7_credentials_never_logged.1 exArgs1 (Except.ok ()) (fun _ => none) exDict1 exDict1b
    ⟨Conn1Params.mk "db" "user" "pw1" "h" 5439, rfl⟩ ⟨Conn1Params.mk "db" "user" "pw2" "h" 5439, rfl⟩

/-- C10: in test2.py the SCHEMA_NO parameter is converted with int() before
any side effect, so a run whose SCHEMA_NO is not a decimal integer string
aborts with a ValueError on an empty trace: no secret fetch, no connection
attempt, no query execution. -/
theorem c10_parse_before_side_effects (a : Args2) (w : World2)
    (h : pyInt a.SCHEMA_NO = none) :
    main2 a w = ([], Except.error (PyErr.valueError
        ("invalid literal for int() with base 10: " ++ a.SCHEMA_NO)))
      ∧ countEvt isFetchSecret (main2 a w).1 = 0
      ∧ countEvt isConnectAttempt (main2 a w).1 = 0
      ∧ execQueries (main2 a w).1 = [] := by
  have h2 : main2 a w = ([], Except.error (PyErr.valueError
      ("invalid literal for int() with base 10: " ++ a.SCHEMA_NO))) := by
    simp [main2, h]
  refine ⟨h2, ?_, ?_, ?_⟩ <;> rw [h2] <;> rfl

/-- Witness for C10 at SCHEMA_NO abc. -/
theorem c10_witness :
    main2 exArgs2abc exWorld2ok = ([], Except.error (PyErr.valueError
        ("invalid literal for int() with base 10: " ++ "abc"))) :=
  (c10_parse_before_side_effects exArgs2abc exWorld2ok rfl).1

/-- C9: in test.py every failure during connection establishment, including a
non-numeric port string (the int conversion sits inside the guarded try
block), surfaces as a RuntimeError wrapping the original error, and no
connection is returned on failure (the result is then never ok). -/
theorem c9_conn_failures_wrapped :
    (∀ (connect : Conn1Params → Except String Unit) (d : List (String × String)),
      (get_redshift_connection1 connect d).2 = Except.ok ()
        ∨ ∃ m, (get_redshift_connection1 connect d).2 = Except.error (PyErr.runtimeError m))
    ∧ (∀ (connect : Conn1Params → Except String Unit) (d : List (String × String)) (s : String),
        d.lookup "port" = some s → pyInt s = none →
        ∃ m, (get_redshift_connection1 connect d).2 = Except.error (PyErr.runtimeError m)) := by
  constructor
  · intro connect d
    rcases conn1_cases connect d with ⟨m, hm⟩ | ⟨m, hm⟩ | hm
    · exact Or.inr ⟨m, by rw [hm]⟩
    · exact Or.inr ⟨m, by rw [hm]⟩
    · exact Or.inl (by rw [hm])
  · intro connect d s hs hparse
    obtain ⟨e, he⟩ := connParams1_port_invalid d s hs hparse
    exact ⟨"Redshiftへの接続に失敗しました: " ++ pyStr e,
      by simp [get_redshift_connection1, he]⟩

/-- Witness for C9 with a secret whose port is the non-numeric string abc. -/
theorem c9_witness :
    ∃ m, (get_redshift_connection1 (fun _ => Except.ok ()) exDict1bad).2
      = Except.error (PyErr.runtimeError m) :=
  c9_conn_failures_wrapped.2 (fun _ => Except.ok ()) exDict1bad "abc" rfl rfl

/-- C1 counterexample: a test2.py run with SCHEMA_NO=3 (an unrecognized mode)
fetches the secret and opens the connection before failing, contradicting the
claim that an out-of-range mode fails before any connection attempt or other
side effect. -/
theorem c1_counterexample :
    Event.fetchSecret "sec" ∈ (main2 exArgs2bad exWorld2ok).1
      ∧ Event.connOpened ∈ (main2 exArgs2bad exWorld2ok).1
      ∧ (main2 exArgs2bad exWorld2ok).2
          = Except.error (PyErr.valueError ("无效的 SCHEMA_NO: 3")) :=
  ⟨by decide, by decide, rfl⟩

/-- C1 amended: for every test2.py run whose SCHEMA_NO parses to an integer
outside 1 and 2, the run fails with an error, executes zero queries and never
commits — but the secret fetch and the connection open are not prevented,
because the mode check runs only after the connection is opened. -/
theorem c1_amended (a : Args2) (w : World2) (n : Int) (hn : pyInt a.SCHEMA_NO = some n)
    (h1 : n ≠ 1) (h2 : n ≠ 2) :
    execQueries (main2 a w).1 = [] ∧ countEvt isCommit (main2 a w).1 = 0
      ∧ ∃ e, (main2 a w).2 = Except.error e := by
  rcases hs : w.secretResult with m | d
  · refine ⟨?_, ?_, PyErr.secretError m, ?_⟩ <;>
      simp [main2, hn, hs, execQueries, countEvt, isCommit]
  · rcases conn2_cases w.connect d with ⟨e, hm⟩ | ⟨m, hm⟩ | hm
    · refine ⟨?_, ?_, e, ?_⟩ <;>
        simp [main2, hn, hs, hm, execQueries, countEvt, isCommit]
    · refine ⟨?_, ?_, PyErr.connError m, ?_⟩ <;>
        simp [main2, hn, hs, hm, execQueries, countEvt, isCommit]
    · refine ⟨?_, ?_, PyErr.valueError ("无效的 SCHEMA_NO: " ++ toString n), ?_⟩ <;>
        simp [main2, hn, hs, hm, h1, h2, execQueries, countEvt, isCommit]

/-- Witness for the amended C1 at SCHEMA_NO=3 with an all-success world. -/
theorem c1_witness :
    execQueries (main2 exArgs2bad exWorld2ok).1 = []
      ∧ countEvt isCommit (main2 exArgs2bad exWorld2ok).1 = 0
      ∧ ∃ e, (main2 exArgs2bad exWorld2ok).2 = Except.error e :=
  c1_amended exArgs2bad exWorld2ok 3 rfl (by decide) (by decide)

/-- C2 counterexample: in the test2.py run with SCHEMA_NO=3 the connection is
opened yet never closed (the invalid-mode raise happens before the
try/finally), contradicting closed-exactly-once on every exit path. -/
theorem c2_counterexample :
    Event.connOpened ∈ (main2 exArgs2bad exWorld2ok).1
      ∧ countEvt isClose (main2 exArgs2bad exWorld2ok).1 = 0 :=
  ⟨by decide, by decide⟩

/-- C2 amended: in test.py, every run that opens a connection closes it
exactly once on every exit path; in test2.py the same holds provided the
parsed SCHEMA_NO is 1 or 2 — the invalid-mode path opens the connection and
aborts without closing it. -/
theorem c2_amended :
    (∀ (a : Args1) (w : World1), Event.connOpened ∈ (main1 a w).1 →
      countEvt isClose (main1 a w).1 = 1)
    ∧ (∀ (a : Args2) (w : World2),
        (∀ n, pyInt a.SCHEMA_NO = some n → n = 1 ∨ n = 2) →
        Event.connOpened ∈ (main2 a w).1 → countEvt isClose (main2 a w).1 = 1) := by
  constructor
  · intro a w h
    rcases hs : w.secretResult with m | d
    · simp [main1, hs] at h
    · rcases conn1_cases w.connect d with ⟨m, hm⟩ | ⟨m, hm⟩ | hm
      · simp [main1, hs, hm] at h
      · simp [main1, hs, hm] at h
      · rcases hr : run_queries w.execQ
            (build_queries1 a.RAW_SCHEMA a.RAW_TABLE a.STORAGE_SCHEMA a.STORAGE_TABLE)
            with ⟨trq, res⟩
        have h0 : countEvt isClose trq = 0 := by
          have hz := countEvt_run_queries isClose (fun _ => rfl) rfl w.execQ
            (build_queries1 a.RAW_SCHEMA a.RAW_TABLE a.STORAGE_SCHEMA a.STORAGE_TABLE)
          rw [hr] at hz
          exact hz
        rcases res with _ | msg <;>
          simp [main1, hs, hm, copyPhase1, hr, countEvt_append, countEvt_cons_pos,
            countEvt_cons_neg, countEvt_nil, isClose, h0]
  · intro a w hvalid h
    rcases hpi : pyInt a.SCHEMA_NO with _ | n
    · simp [main2, hpi] at h
    · rcases hs : w.secretResult with m | d
      · simp [main2, hpi, hs] at h
      · rcases conn2_cases w.connect d with ⟨e, hm⟩ | ⟨m, hm⟩ | hm
        · simp [main2, hpi, hs, hm] at h
        · simp [main2, hpi, hs, hm] at h
        · rcases hvalid n hpi with rfl | rfl
          · rcases hr : run_queries w.execQ (storageQueries a) with ⟨trq, res⟩
            have h0 : countEvt isClose trq = 0 := by
              have hz := countEvt_run_queries isClose (fun _ => rfl) rfl w.execQ
                (storageQueries a)
              rw [hr] at hz
              exact hz
            rcases res with _ | msg <;>
              simp [main2, hpi, hs, hm, copyPhase2, hr, countEvt_append, countEvt_cons_pos,
                countEvt_cons_neg, countEvt_nil, isClose, h0]
          · rcases hr : run_queries w.execQ (analysisQueries a) with ⟨trq, res⟩
            have h0 : countEvt isClose trq = 0 := by
              have hz := countEvt_run_queries isClose (fun _ => rfl) rfl w.execQ
                (analysisQueries a)
              rw [hr] at hz
              exact hz
            rcases res with _ | msg <;>
              simp [main2, hpi, hs, hm, copyPhase2, hr, countEvt_append, countEvt_cons_pos,
                countEvt_cons_neg, countEvt_nil, isClose, h0]

/-- Witness for the amended C2 on a successful test.py run. -/
theorem c2_witness : countEvt isClose (main1 exArgs1 exWorld1ok).1 = 1 :=
  c2_amended.1 exArgs1 exWorld1ok (by decide)

/-- C3: in both variants, when executing the truncate or insert fails, the
run logs the failure, issues a rollback, then closes the connection (the
trace ends with rollback, close, closed-log in that order), never commits,
and re-raises the execution error. -/
theorem c3_rollback_on_failure :
    (∀ (a : Args1) (w : World1) (d : List (String × String)) (trc trq : List Event)
        (msg : String),
      w.secretResult = Except.ok d →
      get_redshift_connection1 w.connect d = (trc, Except.ok ()) →
      run_queries w.execQ
          (build_queries1 a.RAW_SCHEMA a.RAW_TABLE a.STORAGE_SCHEMA a.STORAGE_TABLE)
        = (trq, some msg) →
      (∃ pre, (main1 a w).1
          = pre ++ [Event.rollback, Event.close, Event.log "INFO.connection_closed" []])
        ∧ Event.commit ∉ (main1 a w).1
        ∧ (main1 a w).2 = Except.error (PyErr.execError msg))
    ∧ (∀ (a : Args2) (w : World2) (n : Int) (qs : List String) (d : List (String × String))
        (trc trq : List Event) (msg : String),
        pyInt a.SCHEMA_NO = some n → buildStatements2 n a = some qs →
        w.secretResult = Except.ok d →
        get_redshift_connection2 w.connect d = (trc, Except.ok ()) →
        run_queries w.execQ qs = (trq, some msg) →
        (∃ pre, (main2 a w).1
            = pre ++ [Event.rollback, Event.close,
                Event.log "INFO.connection_closed" ["Redshift 连接已关闭"]])
          ∧ Event.commit ∉ (main2 a w).1
          ∧ (main2 a w).2 = Except.error (PyErr.execError msg)) := by
  constructor
  · intro a w d trc trq msg hs hcn hr
    have htrc := conn1_ok_trace w.connect d trc hcn
    subst htrc
    have htr : (main1 a w).1
        = [Event.log "INFO.job_start" ["DWH_DB_DB_DATA_COPYジョブ"],
            Event.log "DEBUG.fetch_secret" [a.SECRET_NAME], Event.fetchSecret a.SECRET_NAME,
            Event.log "DEBUG.connect_redshift" [], Event.connectAttempt, Event.connOpened,
            Event.log "INFO.connect_redshift_success" [], Event.log "INFO.data_copy_start" []]
          ++ trq ++ [Event.log "ERROR.data_copy_fail" [msg], Event.rollback, Event.close,
            Event.log "INFO.connection_closed" []] := by
      simp [main1, hs, hcn, copyPhase1, hr]
    have hout : (main1 a w).2 = Except.error (PyErr.execError msg) := by
      simp [main1, hs, hcn, copyPhase1, hr]
    have hnc := (run_queries_aborts w.execQ _ trq msg hr).1
    refine ⟨⟨[Event.log "INFO.job_start" ["DWH_DB_DB_DATA_COPYジョブ"],
        Event.log "DEBUG.fetch_secret" [a.SECRET_NAME], Event.fetchSecret a.SECRET_NAME,
        Event.log "DEBUG.connect_redshift" [], Event.connectAttempt, Event.connOpened,
        Event.log "INFO.connect_redshift_success" [], Event.log "INFO.data_copy_start" []]
        ++ trq ++ [Event.log "ERROR.data_copy_fail" [msg]], ?_⟩, ?_, hout⟩
    · rw [htr]
      simp
    · intro hmem
      rw [htr] at hmem
      simp at hmem
      exact hnc hmem
  · intro a w n qs d trc trq msg hn hbs hs hcn hr
    have htrc := conn2_ok_trace w.connect d trc hcn
    subst htrc
    by_cases hn1 : n = 1
    · subst hn1
      obtain rfl : storageQueries a = qs := by simpa [buildStatements2] using hbs
      have htr : (main2 a w).1
          = [Event.log "INFO.job_start" ["DWH_DB_DB_DATA_COPY Job 开始执行"],
              Event.log "DEBUG.fetch_secret" [a.SECRET_NAME], Event.fetchSecret a.SECRET_NAME,
              Event.log "DEBUG.connect_redshift" [""], Event.connectAttempt, Event.connOpened,
              Event.log "INFO.connect_redshift_success" ["Redshift 连接成功"],
              Event.log "INFO.schema_selection" ["SCHEMA_NO=1: RAW -> STORAGE"],
              Event.log "INFO.data_copy_start" ["开始数据复制"]]
            ++ trq ++ [Event.log "ERROR.data_copy_fail" [msg], Event.rollback, Event.close,
              Event.log "INFO.connection_closed" ["Redshift 连接已关闭"]] := by
        simp [main2, hn, hs, hcn, copyPhase2, hr]
      have hout : (main2 a w).2 = Except.error (PyErr.execError msg) := by
        simp [main2, hn, hs, hcn, copyPhase2, hr]
      have hnc := (run_queries_aborts w.execQ _ trq msg hr).1
      refine ⟨⟨[Event.log "INFO.job_start" ["DWH_DB_DB_DATA_COPY Job 开始执行"],
          Event.log "DEBUG.fetch_secret" [a.SECRET_NAME], Event.fetchSecret a.SECRET_NAME,
          Event.log "DEBUG.connect_redshift" [""], Event.connectAttempt, Event.connOpened,
          Event.log "INFO.connect_redshift_success" ["Redshift 连接成功"],
          Event.log "INFO.schema_selection" ["SCHEMA_NO=1: RAW -> STORAGE"],
          Event.log "INFO.data_copy_start" ["开始数据复制"]]
          ++ trq ++ [Event.log "ERROR.data_copy_fail" [msg]], ?_⟩, ?_, hout⟩
      · rw [htr]
        simp
      · intro hmem
        rw [htr] at hmem
        simp at hmem
        exact hnc hmem
    · by_cases hn2 : n = 2
      · subst hn2
        obtain rfl : analysisQueries a = qs := by simpa [buildStatements2] using hbs
        have htr : (main2 a w).1
            = [Event.log "INFO.job_start" ["DWH_DB_DB_DATA_COPY Job 开始执行"],
                Event.log "DEBUG.fetch_secret" [a.SECRET_NAME], Event.fetchSecret a.SECRET_NAME,
                Event.log "DEBUG.connect_redshift" [""], Event.connectAttempt, Event.connOpened,
                Event.log "INFO.connect_redshift_success" ["Redshift 连接成功"],
                Event.log "INFO.schema_selection" ["SCHEMA_NO=2: STORAGE -> ANALYSIS"],
                Event.log "INFO.data_copy_start" ["开始数据复制"]]
              ++ trq ++ [Event.log "ERROR.data_copy_fail" [msg], Event.rollback, Event.close,
                Event.log "INFO.connection_closed" ["Redshift 连接已关闭"]] := by
          simp [main2, hn, hs, hcn, copyPhase2, hr]
        have hout : (main2 a w).2 = Except.error (PyErr.execError msg) := by
          simp [main2, hn, hs, hcn, copyPhase2, hr]
        have hnc := (run_queries_aborts w.execQ _ trq msg hr).1
        refine ⟨⟨[Event.log "INFO.job_start" ["DWH_DB_DB_DATA_COPY Job 开始执行"],
            Event.log "DEBUG.fetch_secret" [a.SECRET_NAME], Event.fetchSecret a.SECRET_NAME,
            Event.log "DEBUG.connect_redshift" [""], Event.connectAttempt, Event.connOpened,
            Event.log "INFO.connect_redshift_success" ["Redshift 连接成功"],
            Event.log "INFO.schema_selection" ["SCHEMA_NO=2: STORAGE -> ANALYSIS"],
            Event.log "INFO.data_copy_start" ["开始数据复制"]]
            ++ trq ++ [Event.log "ERROR.data_copy_fail" [msg]], ?_⟩, ?_, hout⟩
        · rw [htr]
          simp
        · intro hmem
          rw [htr] at hmem
          simp at hmem
          exact hnc hmem
      · simp [buildStatements2, hn1, hn2] at hbs

/-- Witness for C3 on a test.py run whose first statement fails. -/
theorem c3_witness :
    (main1 exArgs1 exWorld1fail).2 = Except.error (PyErr.execError "boom") :=
  (c3_rollback_on_failure.1 exArgs1 exWorld1fail exDict1
    [Event.connectAttempt, Event.connOpened]
    [Event.execQuery "TRUNCATE TABLE storage.orders"] "boom" rfl rfl rfl).2.2

/-- C8: in both variants the secret fetch and the connection open are each
attempted at most once per run; a secret-store failure aborts the run before
any connection attempt, and a connection failure aborts the run before any
query, with the error propagated and no internal retry. -/
theorem c8_no_retry :
    (∀ (a : Args1) (w : World1),
      countEvt isFetchSecret (main1 a w).1 ≤ 1 ∧ countEvt isConnectAttempt (main1 a w).1 ≤ 1)
    ∧ (∀ (a : Args2) (w : World2),
      countEvt isFetchSecret (main2 a w).1 ≤ 1 ∧ countEvt isConnectAttempt (main2 a w).1 ≤ 1)
    ∧ (∀ (a : Args1) (w : World1) (m : String), w.secretResult = Except.error m →
      (main1 a w).2 = Except.error (PyErr.secretError m)
        ∧ countEvt isConnectAttempt (main1 a w).1 = 0)
    ∧ (∀ (a : Args2) (w : World2) (n : Int) (m : String), pyInt a.SCHEMA_NO = some n →
      w.secretResult = Except.error m →
      (main2 a w).2 = Except.error (PyErr.secretError m)
        ∧ countEvt isConnectAttempt (main2 a w).1 = 0)
    ∧ (∀ (a : Args1) (w : World1) (d : List (String × String)) (trc : List Event) (e : PyErr),
      w.secretResult = Except.ok d →
      get_redshift_connection1 w.connect d = (trc, Except.error e) →
      (main1 a w).2 = Except.error e ∧ execQueries (main1 a w).1 = [])
    ∧ (∀ (a : Args2) (w : World2) (n : Int) (d : List (String × String)) (trc : List Event)
        (e : PyErr), pyInt a.SCHEMA_NO = some n → w.secretResult = Except.ok d →
      get_redshift_connection2 w.connect d = (trc, Except.error e) →
      (main2 a w).2 = Except.error e ∧ execQueries (main2 a w).1 = []) := by
  refine ⟨?_, ?_, ?_, ?_, ?_, ?_⟩
  · intro a w
    rcases hs : w.secretResult with m | d
    · constructor <;> simp [main1, hs, countEvt_append, countEvt_cons_pos, countEvt_cons_neg,
        countEvt_nil, isFetchSecret, isConnectAttempt]
    · rcases conn1_cases w.connect d with ⟨m, hm⟩ | ⟨m, hm⟩ | hm
      · constructor <;> simp [main1, hs, hm, countEvt_append, countEvt_cons_pos,
          countEvt_cons_neg, countEvt_nil, isFetchSecret, isConnectAttempt]
      · constructor <;> simp [main1, hs, hm, countEvt_append, countEvt_cons_pos,
          countEvt_cons_neg, countEvt_nil, isFetchSecret, isConnectAttempt]
      · rcases hr : run_queries w.execQ
            (build_queries1 a.RAW_SCHEMA a.RAW_TABLE a.STORAGE_SCHEMA a.STORAGE_TABLE)
            with ⟨trq, res⟩
        have hf0 : countEvt isFetchSecret trq = 0 := by
          have hz := countEvt_run_queries isFetchSecret (fun _ => rfl) rfl w.execQ
            (build_queries1 a.RAW_SCHEMA a.RAW_TABLE a.STORAGE_SCHEMA a.STORAGE_TABLE)
          rw [hr] at hz
          exact hz
        have hc0 : countEvt isConnectAttempt trq = 0 := by
          have hz := countEvt_run_queries isConnectAttempt (fun _ => rfl) rfl w.execQ
            (build_queries1 a.RAW_SCHEMA a.RAW_TABLE a.STORAGE_SCHEMA a.STORAGE_TABLE)
          rw [hr] at hz
          exact hz
        rcases res with _ | msg <;> constructor <;>
          simp [main1, hs, hm, copyPhase1, hr, countEvt_append, countEvt_cons_pos,
            countEvt_cons_neg, countEvt_nil, isFetchSecret, isConnectAttempt, hf0, hc0]
  · intro a w
    rcases hpi : pyInt a.SCHEMA_NO with _ | n
    · constructor <;> simp [main2, hpi, countEvt_nil]
    · rcases hs : w.secretResult with m | d
      · constructor <;> simp [main2, hpi, hs, countEvt_append, countEvt_cons_pos,
          countEvt_cons_neg, countEvt_nil, isFetchSecret, isConnectAttempt]
      · rcases conn2_cases w.connect d with ⟨e, hm⟩ | ⟨m, hm⟩ | hm
        · constructor <;> simp [main2, hpi, hs, hm, countEvt_append, countEvt_cons_pos,
            countEvt_cons_neg, countEvt_nil, isFetchSecret, isConnectAttempt]
        · constructor <;> simp [main2, hpi, hs, hm, countEvt_append, countEvt_cons_pos,
            countEvt_cons_neg, countEvt_nil, isFetchSecret, isConnectAttempt]
        · by_cases hn1 : n = 1
          · subst hn1
            rcases hr : run_queries w.execQ (storageQueries a) with ⟨trq, res⟩
            have hf0 : countEvt isFetchSecret trq = 0 := by
              have hz := countEvt_run_queries isFetchSecret (fun _ => rfl) rfl w.execQ
                (storageQueries a)
              rw [hr] at hz
              exact hz
            have hc0 : countEvt isConnectAttempt trq = 0 := by
              have hz := countEvt_run_queries isConnectAttempt (fun _ => rfl) rfl w.execQ
                (storageQueries a)
              rw [hr] at hz
              exact hz
            rcases res with _ | msg <;> constructor <;>
              simp [main2, hpi, hs, hm, copyPhase2, hr, countEvt_append, countEvt_cons_pos,
                countEvt_cons_neg, countEvt_nil, isFetchSecret, isConnectAttempt, hf0, hc0]
          · by_cases hn2 : n = 2
            · subst hn2
              rcases hr : run_queries w.execQ (analysisQueries a) with ⟨trq, res⟩
              have hf0 : countEvt isFetchSecret trq = 0 := by
                have hz := countEvt_run_queries isFetchSecret (fun _ => rfl) rfl w.execQ
                  (analysisQueries a)
                rw [hr] at hz
                exact hz
              have hc0 : countEvt isConnectAttempt trq = 0 := by
                have hz := countEvt_run_queries isConnectAttempt (fun _ => rfl) rfl w.execQ
                  (analysisQueries a)
                rw [hr] at hz
                exact hz
              rcases res with _ | msg <;> constructor <;>
                simp [main2, hpi, hs, hm, copyPhase2, hr, countEvt_append, countEvt_cons_pos,
                  countEvt_cons_neg, countEvt_nil, isFetchSecret, isConnectAttempt, hf0, hc0]
            · constructor <;> simp [main2, hpi, hs, hm, hn1, hn2, countEvt_append,
                countEvt_cons_pos, countEvt_cons_neg, countEvt_nil, isFetchSecret,
                isConnectAttempt]
  · intro a w m hs
    constructor <;> simp [main1, hs, countEvt_append, countEvt_cons_pos, countEvt_cons_neg,
      countEvt_nil, isConnectAttempt]
  · intro a w n m hn hs
    constructor <;> simp [main2, hn, hs, countEvt_append, countEvt_cons_pos, countEvt_cons_neg,
      countEvt_nil, isConnectAttempt]
  · intro a w d trc e hs hcn
    rcases conn1_cases w.connect d with ⟨m, hm⟩ | ⟨m, hm⟩ | hm
    · rw [hm] at hcn
      simp only [Prod.mk.injEq] at hcn
      obtain ⟨h1, h2⟩ := hcn
      subst h1
      constructor
      · simp [main1, hs, hm, h2]
      · simp [main1, hs, hm, execQueries]
    · rw [hm] at hcn
      simp only [Prod.mk.injEq] at hcn
      obtain ⟨h1, h2⟩ := hcn
      subst h1
      constructor
      · simp [main1, hs, hm, h2]
      · simp [main1, hs, hm, execQueries]
    · rw [hm] at hcn
      simp at hcn
  · intro a w n d trc e hn hs hcn
    rcases conn2_cases w.connect d with ⟨e2, hm⟩ | ⟨m, hm⟩ | hm
    · rw [hm] at hcn
      simp only [Prod.mk.injEq] at hcn
      obtain ⟨h1, h2⟩ := hcn
      subst h1
      constructor
      · simp [main2, hn, hs, hm, h2]
      · simp [main2, hn, hs, hm, execQueries]
    · rw [hm] at hcn
      simp only [Prod.mk.injEq] at hcn
      obtain ⟨h1, h2⟩ := hcn
      subst h1
      constructor
      · simp [main2, hn, hs, hm, h2]
      · simp [main2, hn, hs, hm, execQueries]
    · rw [hm] at hcn
      simp at hcn

/-- Witness for C8 on a run whose secret fetch fails. -/
theorem c8_witness :
    (main1 exArgs1 exWorld1secErr).2 = Except.error (PyErr.secretError "boom")
      ∧ countEvt isConnectAttempt (main1 exArgs1 exWorld1secErr).1 = 0 :=
  c8_no_retry.2.2.1 exArgs1 exWorld1secErr "boom" rfl

end CopyJob
